import Mathlib

/-!
Formal model of the ETF premium dashboard serverless function
(`src/api/etf.js`; the earlier variant of the same handler is
`src/unnamed/part_000`).

The effectful boundary is modelled as explicit inputs to otherwise pure
functions:

* the primary fetch-and-extract result for one code is an
  `Except String Extracted`: the error carries the thrown message, the
  success carries the four `pickNumber`/`pickText` outputs of
  `fetchFromMoneyDJ`'s regex-extraction stage over the normalized page
  text (that stage — lines 79–102 of `src/api/etf.js` — is
  character-identical in the two source files, so the two versions are
  compared as functions of its output);
* the secondary (TWSE realtime) fetch result is an
  `Except String (List TwseQuote)`: the success carries the `msgArray`
  entries with their `z`/`pz` fields already run through
  `parseFloat`/`Number.isFinite` (`none` models a missing or non-finite
  field).

JS numbers are modelled as exact rationals `ℚ`.
-/

namespace EtfDashboard

attribute [local semireducible] Rat.add Rat.mul Rat.inv Rat.sub Rat.ofScientific

/-- Model of the JS string method `s.trim()`: strip leading and trailing
whitespace (the ASCII whitespace relevant to the codes at issue). -/
def jsTrim (s : String) : String :=
  ⟨((s.data.dropWhile Char.isWhitespace).reverse.dropWhile Char.isWhitespace).reverse⟩

/-- Helper for `jsSplitOnComma`: accumulate the current piece (reversed)
while scanning. -/
def jsSplitAux (sep : Char) : List Char → List Char → List String
  | [], acc => [⟨acc.reverse⟩]
  | c :: rest, acc =>
    if c = sep then ⟨acc.reverse⟩ :: jsSplitAux sep rest []
    else jsSplitAux sep rest (c :: acc)

/-- Model of the JS string method `s.split(",")`; in particular
`"".split(",")` is `[""]`. -/
def jsSplitOnComma (s : String) : List String := jsSplitAux ',' s.data []

/-- Model of the JS string method `s.toUpperCase()` (ASCII, which covers
the fund codes at issue). -/
def jsToUpper (s : String) : String := ⟨s.data.map Char.toUpper⟩

/-- JS string truthiness for the `x || d` default idiom used at lines 38
and 43: `null` and the empty string are falsy. -/
def jsOrString (s : Option String) (d : String) : String :=
  match s with
  | none => d
  | some v => if v = "" then d else v

/-- Model of `round2` in `src/api/etf.js` lines 68–70:
`Math.round(n * 100) / 100`.  JS `Math.round` on a finite value rounds
to the nearest integer with ties toward positive infinity, i.e.
`⌊x + 1/2⌋`. -/
def round2 (n : ℚ) : ℚ := ((⌊n * 100 + 1 / 2⌋ : ℤ) : ℚ) / 100

/-- Modelled from the spec: rounding to 2 decimal places with
round-half-away-from-zero on the scaled integer
(`sgn(x)·round(|x|·100)/100`, halves of the scaled value rounded away
from zero).  Stated only for comparison with the source's `round2`. -/
def specRound2 (x : ℚ) : ℚ :=
  ((if x < 0 then -⌊-x * 100 + 1 / 2⌋ else ⌊x * 100 + 1 / 2⌋ : ℤ) : ℚ) / 100

/-- Output of the regex-extraction stage of `fetchFromMoneyDJ`
(`src/api/etf.js` lines 93–102): the `pickNumber`/`pickText` results
over the normalized page text.  `none` models `null` (no match, or a
matched but non-finite number). -/
structure Extracted where
  mdPrice : Option ℚ
  nav : Option ℚ
  navDate : Option String
  premiumPct : Option ℚ
deriving Repr, DecidableEq

/-- The per-code record returned by `fetchFromMoneyDJ` and mutated by
the overlay step (§3 FundRecord). -/
structure FundRecord where
  code : String
  nav : Option ℚ
  navDate : Option String
  price : Option ℚ
  priceFrom : Option String
  premiumPct : Option ℚ
  premiumFrom : Option String
  moneydjUrl : String
  realtimePriceNote : Option String
deriving Repr, DecidableEq

/-- URL built at `src/api/etf.js` lines 73–75; `encodeURIComponent` is
the identity on the trimmed upper-case alphanumeric codes at issue. -/
def moneydjUrlOf (code : String) : String :=
  "https://www.moneydj.com/etf/x/basic/basic0004.xdjhtm?etfid=" ++ code ++ ".TW"

/-- Model of `fetchFromMoneyDJ` in `src/api/etf.js` (lines 72–132), as a
function of the regex-extraction result `e` over the fetched page. -/
def fetchFromMoneyDJ (code : String) (e : Extracted) : FundRecord :=
  let calcPremium : Option ℚ :=
    match e.mdPrice, e.nav with
    | some p, some n => if n ≠ 0 then some (round2 ((p - n) / n * 100)) else none
    | _, _ => none
  let premiumA : Option ℚ :=
    match e.premiumPct, calcPremium with
    | none, some c => some c
    | pp, _ => pp
  let premiumB : Option ℚ :=
    match premiumA, calcPremium with
    | some p, some c => if |p - c| > 1 then some c else some p
    | pp, _ => pp
  { code := code
    nav := e.nav
    navDate := e.navDate
    price := e.mdPrice
    priceFrom := match e.mdPrice with | some _ => some "MoneyDJ" | none => none
    premiumPct := premiumB
    premiumFrom :=
      match premiumB with
      | none => none
      | some p =>
        if some p = calcPremium then some "Computed from MoneyDJ price & NAV"
        else some "MoneyDJ (parsed)"
    moneydjUrl := moneydjUrlOf code
    realtimePriceNote := none }

namespace Part000

/-- Model of `fetchFromMoneyDJ` in `src/unnamed/part_000` (lines
73–123): identical extraction stage, but the premium is computed only
when the parsed one is absent, there is no divergence check, and any
non-null premium is labelled `"MoneyDJ (parsed)"`. -/
def fetchFromMoneyDJ (code : String) (e : Extracted) : FundRecord :=
  let premium : Option ℚ :=
    match e.premiumPct with
    | some p => some p
    | none =>
      match e.mdPrice, e.nav with
      | some p, some n => if n ≠ 0 then some (round2 ((p - n) / n * 100)) else none
      | _, _ => none
  { code := code
    nav := e.nav
    navDate := e.navDate
    price := e.mdPrice
    priceFrom := match e.mdPrice with | some _ => some "MoneyDJ" | none => none
    premiumPct := premium
    premiumFrom := match premium with | some _ => some "MoneyDJ (parsed)" | none => none
    moneydjUrl := moneydjUrlOf code
    realtimePriceNote := none }

end Part000

/-- One entry of the TWSE `msgArray`, with `z` (last price) and `pz`
(previous close) already through `parseFloat`/`Number.isFinite`. -/
structure TwseQuote where
  c : String
  z : Option ℚ
  pz : Option ℚ
deriving Repr, DecidableEq

/-- JS object assignment `obj[k] = v` on a string-keyed object modelled
as an association list: replace in place, or append a new key. -/
def jsObjSet {α : Type} (l : List (String × α)) (k : String) (v : α) : List (String × α) :=
  match l with
  | [] => [(k, v)]
  | (k1, v1) :: rest => if k1 = k then (k1, v) :: rest else (k1, v1) :: jsObjSet rest k v

/-- JS object property read `obj[k]` on such an object. -/
def jsObjGet {α : Type} (l : List (String × α)) (k : String) : Option α :=
  match l with
  | [] => none
  | (k1, v1) :: rest => if k1 = k then some v1 else jsObjGet rest k

/-- The parsing stage of `fetchTwseRealtimePrices` (`src/api/etf.js`
lines 183–194): build the code → price map from `msgArray`, preferring
`z` and falling back to `pz`; entries with an empty code or no finite
price are skipped. -/
def twsePriceMapOf (arr : List TwseQuote) : List (String × ℚ) :=
  arr.foldl
    (fun map it =>
      let code := jsToUpper it.c
      let price := match it.z with | some z => some z | none => it.pz
      match price with
      | some p => if code ≠ "" then jsObjSet map code p else map
      | none => map)
    []

/-- The per-record realtime overlay, `src/api/etf.js` lines 26–40: when
the TWSE map has a (finite) price for the record's code, adopt it and
recompute the premium against the MoneyDJ NAV; otherwise default
`priceFrom` to the primary label. -/
def applyOverlay (twsePriceMap : List (String × ℚ)) (it : FundRecord) : FundRecord :=
  match jsObjGet twsePriceMap it.code with
  | some rt =>
    let it1 := { it with price := some rt, priceFrom := some "TWSE realtime" }
    match it.nav with
    | some n =>
      if n ≠ 0 then
        { it1 with
            premiumPct := some (round2 ((rt - n) / n * 100))
            premiumFrom := some "TWSE realtime price vs MoneyDJ NAV" }
      else it1
    | none => it1
  | none => { it with priceFrom := some (jsOrString it.priceFrom "MoneyDJ") }

/-- The overlay-failure fallback, `src/api/etf.js` lines 41–46. -/
def applyOverlayFailed (it : FundRecord) : FundRecord :=
  { it with
      priceFrom := some (jsOrString it.priceFrom "MoneyDJ")
      realtimePriceNote := some "TWSE realtime price fetch failed; using MoneyDJ price." }

/-- Lines 10–14: normalize the `codes` query parameter (trim, split on
commas, trim + upper-case each piece, drop empty pieces). -/
def parseCodes (codesRaw : Option String) : List String :=
  ((jsSplitOnComma (jsTrim (codesRaw.getD ""))).map (fun s => jsToUpper (jsTrim s))).filter
    (fun s => s ≠ "")

/-- Line 21, `await Promise.all(codes.map(fetchFromMoneyDJ))`: every
primary fetch must succeed; any rejection (modelled as the leftmost
failing code's message) fails the whole batch. -/
def fetchAll (primary : String → Except String Extracted) :
    List String → Except String (List FundRecord)
  | [] => .ok []
  | c :: cs =>
    match primary c with
    | .error msg => .error msg
    | .ok e =>
      match fetchAll primary cs with
      | .error msg => .error msg
      | .ok rest => .ok (fetchFromMoneyDJ c e :: rest)

/-- Line 48, `Object.fromEntries(items.map(x => [x.code, x]))`: later
duplicate keys overwrite earlier ones in place. -/
def fromEntries (l : List (String × FundRecord)) : List (String × FundRecord) :=
  l.foldl (fun acc p => jsObjSet acc p.1 p.2) []

/-- The JSON documents the handler can send: the success envelope
(status 200) or an error document with a status code, an `error`
category and an optional `message`. -/
inductive ApiResponse where
  | ok (status : Nat) (updatedAt : String) (items : List FundRecord)
      (byCode : List (String × FundRecord)) (source : String)
  | apiError (status : Nat) (error : String) (message : Option String)
deriving Repr, DecidableEq

/-- Items of a success response (empty for an error response). -/
def ApiResponse.itemsOf : ApiResponse → List FundRecord
  | .ok _ _ items _ _ => items
  | .apiError _ _ _ => []

/-- Model of the request handler `module.exports` in `src/api/etf.js`
(lines 9–66).  `now` stands for `new Date().toISOString()`; `primary`
is the per-code MoneyDJ fetch-and-extract; `secondary` is the TWSE
fetch result. -/
def handler (codesRaw : Option String) (now : String)
    (primary : String → Except String Extracted)
    (secondary : Except String (List TwseQuote)) : ApiResponse :=
  let codes := parseCodes codesRaw
  if codes = [] then
    .apiError 400 "missing codes. e.g. ?codes=00713,00635U" none
  else
    match fetchAll primary codes with
    | .error msg => .apiError 502 "upstream error" (some msg)
    | .ok items0 =>
      let items :=
        match secondary with
        | .ok arr => items0.map (applyOverlay (twsePriceMapOf arr))
        | .error _ => items0.map applyOverlayFailed
      .ok 200 now items (fromEntries (items.map (fun x => (x.code, x))))
        "MoneyDJ (NAV/premium) + optional TWSE realtime price"

/-- C2: when the parsed premium and the computed premium both exist and
diverge by more than 1.0 percentage point, primary extraction overwrites
the premium with the computed value and labels it as computed from
price and NAV. -/
theorem C2_divergence_overwrite (code : String) (e : Extracted) (p n pp : ℚ)
    (hp : e.mdPrice = some p) (hn : e.nav = some n) (hn0 : n ≠ 0)
    (hpp : e.premiumPct = some pp)
    (hdiv : |pp - round2 ((p - n) / n * 100)| > 1) :
    (fetchFromMoneyDJ code e).premiumPct = some (round2 ((p - n) / n * 100)) ∧
      (fetchFromMoneyDJ code e).premiumFrom = some "Computed from MoneyDJ price & NAV" := by
  simp [fetchFromMoneyDJ, hp, hn, hn0, hpp, hdiv]

theorem C2_divergence_overwrite_witness :
    (fetchFromMoneyDJ "00713" ⟨some 103, some 100, none, some 5⟩).premiumPct
        = some (round2 ((103 - 100) / 100 * 100)) ∧
      (fetchFromMoneyDJ "00713" ⟨some 103, some 100, none, some 5⟩).premiumFrom
        = some "Computed from MoneyDJ price & NAV" :=
  C2_divergence_overwrite "00713" ⟨some 103, some 100, none, some 5⟩ 103 100 5 rfl rfl
    (by decide) rfl (by decide)

/-- C3 counterexample: with parsed premium 3.00, price 103 and NAV 100
the parsed and computed premiums coincide (divergence 0 ≤ 1.0), yet the
code labels the kept value `"Computed from MoneyDJ price & NAV"` (it
tests `premiumPct === calcPremium`, not whether an overwrite happened),
refuting the claimed `"MoneyDJ (parsed)"` label for the case p = c. -/
theorem C3_counterexample :
    (fetchFromMoneyDJ "00713" ⟨some 103, some 100, none, some 3⟩).premiumPct = some 3 ∧
      (fetchFromMoneyDJ "00713" ⟨some 103, some 100, none, some 3⟩).premiumFrom
        ≠ some "MoneyDJ (parsed)" := by
  decide

/-- C3 amended: when parsed premium p and computed premium c both exist
with abs(p − c) ≤ 1.0, the final premiumPct is p; premiumFrom is
`"MoneyDJ (parsed)"` when p ≠ c, but `"Computed from MoneyDJ price &
NAV"` when p = c. -/
theorem C3_amended (code : String) (e : Extracted) (p n pp : ℚ)
    (hp : e.mdPrice = some p) (hn : e.nav = some n) (hn0 : n ≠ 0)
    (hpp : e.premiumPct = some pp)
    (hnd : |pp - round2 ((p - n) / n * 100)| ≤ 1) :
    (fetchFromMoneyDJ code e).premiumPct = some pp ∧
      (fetchFromMoneyDJ code e).premiumFrom =
        some (if pp = round2 ((p - n) / n * 100) then "Computed from MoneyDJ price & NAV"
          else "MoneyDJ (parsed)") := by
  have hnd1 : ¬(1 < |pp - round2 ((p - n) / n * 100)|) := not_lt.mpr hnd
  refine ⟨?_, ?_⟩
  · simp [fetchFromMoneyDJ, hp, hn, hn0, hpp, hnd1]
  · simp [fetchFromMoneyDJ, hp, hn, hn0, hpp, if_neg hnd1]
    split <;> simp_all

theorem C3_amended_witness :
    (fetchFromMoneyDJ "00713" ⟨some 103, some 100, none, some (17 / 5)⟩).premiumPct
        = some (17 / 5) ∧
      (fetchFromMoneyDJ "00713" ⟨some 103, some 100, none, some (17 / 5)⟩).premiumFrom =
        some (if (17 / 5 : ℚ) = round2 ((103 - 100) / 100 * 100)
          then "Computed from MoneyDJ price & NAV" else "MoneyDJ (parsed)") :=
  C3_amended "00713" ⟨some 103, some 100, none, some (17 / 5)⟩ 103 100 (17 / 5) rfl rfl
    (by decide) rfl (by decide)

/-- C4: whenever the realtime overlay map yields a price for the
record's code, the overlay overwrites price, sets the secondary-source
provenance, and — if the primary NAV is non-null and nonzero —
recomputes the premium from the overlay price and that NAV with the
overlay provenance label, whatever the record's premium was before. -/
theorem C4_overlay_precedence (m : List (String × ℚ)) (it : FundRecord) (rt : ℚ)
    (hrt : jsObjGet m it.code = some rt) :
    (applyOverlay m it).price = some rt ∧
      (applyOverlay m it).priceFrom = some "TWSE realtime" ∧
      ∀ n : ℚ, it.nav = some n → n ≠ 0 →
        (applyOverlay m it).premiumPct = some (round2 ((rt - n) / n * 100)) ∧
          (applyOverlay m it).premiumFrom = some "TWSE realtime price vs MoneyDJ NAV" := by
  unfold applyOverlay
  rw [hrt]
  refine ⟨?_, ?_, ?_⟩
  · cases h : it.nav
    · simp [h]
    · simp only [h]
      split <;> rfl
  · cases h : it.nav
    · simp [h]
    · simp only [h]
      split <;> rfl
  · intro n hn hn0
    rw [hn]
    simp [hn0]

theorem C4_overlay_precedence_witness :
    (applyOverlay [("00713", 101)]
          ⟨"00713", some 98, none, some 100, some "MoneyDJ", some 2,
            some "MoneyDJ (parsed)", "", none⟩).price = some 101 ∧
      (applyOverlay [("00713", 101)]
          ⟨"00713", some 98, none, some 100, some "MoneyDJ", some 2,
            some "MoneyDJ (parsed)", "", none⟩).priceFrom = some "TWSE realtime" ∧
      (applyOverlay [("00713", 101)]
          ⟨"00713", some 98, none, some 100, some "MoneyDJ", some 2,
            some "MoneyDJ (parsed)", "", none⟩).premiumPct
        = some (round2 ((101 - 98) / 98 * 100)) ∧
      (applyOverlay [("00713", 101)]
          ⟨"00713", some 98, none, some 100, some "MoneyDJ", some 2,
            some "MoneyDJ (parsed)", "", none⟩).premiumFrom
        = some "TWSE realtime price vs MoneyDJ NAV" := by
  obtain ⟨h1, h2, h3⟩ :=
    C4_overlay_precedence [("00713", 101)]
      ⟨"00713", some 98, none, some 100, some "MoneyDJ", some 2,
        some "MoneyDJ (parsed)", "", none⟩ 101 (by decide)
  exact ⟨h1, h2, (h3 98 rfl (by decide)).1, (h3 98 rfl (by decide)).2⟩

/-- Every item of a successful primary batch is `fetchFromMoneyDJ` on
some requested code with a successful fetch-and-extract result. -/
theorem fetchAll_ok_mem {primary : String → Except String Extracted} :
    ∀ {codes : List String} {items : List FundRecord},
      fetchAll primary codes = .ok items → ∀ r ∈ items,
        ∃ c e, c ∈ codes ∧ primary c = .ok e ∧ r = fetchFromMoneyDJ c e := by
  intro codes
  induction codes with
  | nil =>
    intro items h r hr
    simp only [fetchAll] at h
    cases h
    simp at hr
  | cons c cs ih =>
    intro items h r hr
    simp only [fetchAll] at h
    cases hpc : primary c with
    | error msg => rw [hpc] at h; cases h
    | ok e =>
      rw [hpc] at h
      cases hrec : fetchAll primary cs with
      | error msg => rw [hrec] at h; cases h
      | ok rest =>
        rw [hrec] at h
        cases h
        rcases List.mem_cons.mp hr with hr1 | hr2
        · exact ⟨c, e, List.mem_cons_self c cs, hpc, hr1⟩
        · obtain ⟨c2, e2, hc2, hp2, hr2e⟩ := ih hrec r hr2
          exact ⟨c2, e2, List.mem_cons_of_mem c hc2, hp2, hr2e⟩

/-- A successful primary batch returns the records in request order,
one per requested code, each carrying its code. -/
theorem fetchAll_ok_codes {primary : String → Except String Extracted} :
    ∀ {codes : List String} {items : List FundRecord},
      fetchAll primary codes = .ok items → items.map FundRecord.code = codes := by
  intro codes
  induction codes with
  | nil =>
    intro items h
    simp only [fetchAll] at h
    cases h
    rfl
  | cons c cs ih =>
    intro items h
    simp only [fetchAll] at h
    cases hpc : primary c with
    | error msg => rw [hpc] at h; cases h
    | ok e =>
      rw [hpc] at h
      cases hrec : fetchAll primary cs with
      | error msg => rw [hrec] at h; cases h
      | ok rest =>
        rw [hrec] at h
        cases h
        simp [ih hrec, fetchFromMoneyDJ]

/-- If any requested code's primary fetch fails, the whole primary
batch fails (with some failing code's message). -/
theorem fetchAll_error_of_mem {primary : String → Except String Extracted}
    {c msg : String} :
    ∀ {codes : List String}, c ∈ codes → primary c = .error msg →
      ∃ m, fetchAll primary codes = .error m := by
  intro codes
  induction codes with
  | nil =>
    intro hc _
    exact absurd hc (List.not_mem_nil c)
  | cons c1 cs ih =>
    intro hc hfail
    rcases List.mem_cons.mp hc with h1 | h2
    · subst h1
      exact ⟨msg, by simp only [fetchAll]; rw [hfail]⟩
    · cases hpc : primary c1 with
      | error m => exact ⟨m, by simp only [fetchAll]; rw [hpc]⟩
      | ok e =>
        obtain ⟨m, hm⟩ := ih h2 hfail
        exact ⟨m, by simp only [fetchAll]; rw [hpc, hm]⟩

/-- The overlay never changes a record's code. -/
theorem applyOverlay_code (m : List (String × ℚ)) (it : FundRecord) :
    (applyOverlay m it).code = it.code := by
  unfold applyOverlay
  cases jsObjGet m it.code
  · rfl
  · cases it.nav
    · rfl
    · dsimp only
      split <;> rfl

/-- Records out of primary extraction have a premium within 1.0
percentage point of the one computed from their price and NAV, whenever
price and NAV are non-null and NAV is nonzero. -/
theorem fetchFromMoneyDJ_premium_near_computed (code : String) (e : Extracted) (p n : ℚ)
    (hp : (fetchFromMoneyDJ code e).price = some p)
    (hn : (fetchFromMoneyDJ code e).nav = some n) (hn0 : n ≠ 0) :
    ∃ pp, (fetchFromMoneyDJ code e).premiumPct = some pp ∧
      |pp - round2 ((p - n) / n * 100)| ≤ 1 := by
  have hp1 : e.mdPrice = some p := hp
  have hn1 : e.nav = some n := hn
  cases hq : e.premiumPct with
  | none =>
    exact ⟨round2 ((p - n) / n * 100),
      by simp [fetchFromMoneyDJ, hp1, hn1, hn0, hq], by simp⟩
  | some q =>
    by_cases hd : 1 < |q - round2 ((p - n) / n * 100)|
    · exact ⟨round2 ((p - n) / n * 100),
        by simp [fetchFromMoneyDJ, hp1, hn1, hn0, hq, hd], by simp⟩
    · exact ⟨q, by simp [fetchFromMoneyDJ, hp1, hn1, hn0, hq, if_neg hd],
        le_of_not_lt hd⟩

/-- The overlay preserves the "premium within 1.0 of computed"
invariant: if it adopts a realtime price it re-derives the premium
exactly; otherwise it leaves price, NAV and premium untouched. -/
theorem applyOverlay_premium_near_computed (m : List (String × ℚ)) (it : FundRecord)
    (hbase : ∀ p n : ℚ, it.price = some p → it.nav = some n → n ≠ 0 →
      ∃ pp, it.premiumPct = some pp ∧ |pp - round2 ((p - n) / n * 100)| ≤ 1)
    (p n : ℚ) (hp : (applyOverlay m it).price = some p)
    (hn : (applyOverlay m it).nav = some n) (hn0 : n ≠ 0) :
    ∃ pp, (applyOverlay m it).premiumPct = some pp ∧
      |pp - round2 ((p - n) / n * 100)| ≤ 1 := by
  unfold applyOverlay at hp hn ⊢
  cases hrt : jsObjGet m it.code with
  | none =>
    rw [hrt] at hp hn
    dsimp only at hp hn ⊢
    exact hbase p n hp hn hn0
  | some rt =>
    rw [hrt] at hp hn
    cases hnav : it.nav with
    | none =>
      rw [hnav] at hn
      dsimp only at hn
      cases hn
    | some n0 =>
      rw [hnav] at hp hn
      dsimp only at hp hn ⊢
      by_cases h0 : n0 ≠ 0
      · rw [if_pos h0] at hp hn ⊢
        dsimp only at hp hn ⊢
        injection hp with hpn
        injection hn with hnn
        exact ⟨round2 ((rt - n0) / n0 * 100), rfl, by simp [hpn, hnn]⟩
      · rw [if_neg h0] at hn
        dsimp only at hn
        injection hn with hnn
        have hz : n = 0 := by rw [← hnn]; exact not_not.mp h0
        exact absurd hz hn0

/-- C8 counterexample: at x = −0.025 the scaled value is the exact
negative half −2.5; `round2` (JS `Math.round`, ties toward +∞) gives
−0.02 while round-half-away-from-zero gives −0.03. -/
theorem C8_counterexample :
    round2 (-(1 / 40)) = -(1 / 50) ∧ specRound2 (-(1 / 40)) = -(3 / 100) ∧
      round2 (-(1 / 40)) ≠ specRound2 (-(1 / 40)) := by
  decide

/-- C8 amended: `round2` rounds the scaled value to the nearest integer
with ties toward positive infinity (`⌊x·100 + 1/2⌋/100`); this agrees
with round-half-away-from-zero except when x is negative and x·100 is
an exact half, where `round2` rounds toward zero instead. -/
theorem C8_amended (x : ℚ) (h : 0 ≤ x ∨ Int.fract (x * 100) ≠ 1 / 2) :
    round2 x = specRound2 x := by
  unfold round2 specRound2
  rcases lt_or_le x 0 with hx | hx
  · rw [if_pos hx]
    have hf : Int.fract (x * 100) ≠ 1 / 2 := h.resolve_left (not_le.mpr hx)
    have hfl : (⌊x * 100⌋ : ℚ) + Int.fract (x * 100) = x * 100 :=
      Int.floor_add_fract (x * 100)
    have h0 : (0 : ℚ) ≤ Int.fract (x * 100) := Int.fract_nonneg (x * 100)
    have h1 : Int.fract (x * 100) < 1 := Int.fract_lt_one (x * 100)
    have hneg : -x * 100 = -(x * 100) := by ring
    rw [hneg]
    rcases lt_or_gt_of_ne hf with hlt | hgt
    · have e1 : ⌊x * 100 + 1 / 2⌋ = ⌊x * 100⌋ := by
        rw [Int.floor_eq_iff]
        constructor
        · linarith [Int.floor_le (x * 100)]
        · linarith
      have e2 : ⌊-(x * 100) + 1 / 2⌋ = -⌊x * 100⌋ := by
        rw [Int.floor_eq_iff]
        constructor
        · push_cast
          linarith
        · push_cast
          linarith
      rw [e1, e2, neg_neg]
    · have e1 : ⌊x * 100 + 1 / 2⌋ = ⌊x * 100⌋ + 1 := by
        rw [Int.floor_eq_iff]
        constructor
        · push_cast
          linarith
        · push_cast
          linarith
      have e2 : ⌊-(x * 100) + 1 / 2⌋ = -⌊x * 100⌋ - 1 := by
        rw [Int.floor_eq_iff]
        constructor
        · push_cast
          linarith
        · push_cast
          linarith
      rw [e1, e2]
      push_cast
      ring
  · rw [if_neg (not_lt.mpr hx)]

theorem C8_amended_witness :
    round2 (-(3 / 100)) = specRound2 (-(3 / 100)) :=
  C8_amended (-(3 / 100)) (Or.inr (by decide))

/-- C10 counterexample: on a page whose extraction yields price 103, NAV
100 and a source premium of 5.00, `src/api/etf.js` overwrites the
premium (divergence 2.0 > 1.0) and labels it computed, while
`src/unnamed/part_000` keeps 5.00 labelled as parsed — the two versions
disagree on premiumPct and premiumFrom. -/
theorem C10_counterexample :
    ((fetchFromMoneyDJ "00713" ⟨some 103, some 100, none, some 5⟩).premiumPct,
        (fetchFromMoneyDJ "00713" ⟨some 103, some 100, none, some 5⟩).premiumFrom) ≠
      ((Part000.fetchFromMoneyDJ "00713" ⟨some 103, some 100, none, some 5⟩).premiumPct,
        (Part000.fetchFromMoneyDJ "00713" ⟨some 103, some 100, none, some 5⟩).premiumFrom) := by
  decide

/-- C10 amended: for every fund code and every extraction result of the
(shared, character-identical) extraction stage, the two versions of
`fetchFromMoneyDJ` agree on code, nav, navDate, price, priceFrom and
moneydjUrl; they may differ on premiumPct and premiumFrom. -/
theorem C10_amended (code : String) (e : Extracted) :
    (Part000.fetchFromMoneyDJ code e).code = (fetchFromMoneyDJ code e).code ∧
      (Part000.fetchFromMoneyDJ code e).nav = (fetchFromMoneyDJ code e).nav ∧
      (Part000.fetchFromMoneyDJ code e).navDate = (fetchFromMoneyDJ code e).navDate ∧
      (Part000.fetchFromMoneyDJ code e).price = (fetchFromMoneyDJ code e).price ∧
      (Part000.fetchFromMoneyDJ code e).priceFrom = (fetchFromMoneyDJ code e).priceFrom ∧
      (Part000.fetchFromMoneyDJ code e).moneydjUrl = (fetchFromMoneyDJ code e).moneydjUrl :=
  ⟨rfl, rfl, rfl, rfl, rfl, rfl⟩

/-- C1 counterexample: a successful response whose single record keeps
the parsed source premium 3.40 although price 103 and NAV 100 compute
to 3.00 — within the 1.0-point tolerance, so the unconditional §3
equality premiumPct = round2((price−nav)/nav·100) fails. -/
theorem C1_counterexample :
    handler (some "00713") "t"
        (fun _ => .ok ⟨some 103, some 100, none, some (17 / 5)⟩) (.error "down") =
      .ok 200 "t"
        [applyOverlayFailed
          (fetchFromMoneyDJ "00713" ⟨some 103, some 100, none, some (17 / 5)⟩)]
        [("00713", applyOverlayFailed
          (fetchFromMoneyDJ "00713" ⟨some 103, some 100, none, some (17 / 5)⟩))]
        "MoneyDJ (NAV/premium) + optional TWSE realtime price" ∧
      (applyOverlayFailed
        (fetchFromMoneyDJ "00713" ⟨some 103, some 100, none, some (17 / 5)⟩)).price
        = some 103 ∧
      (applyOverlayFailed
        (fetchFromMoneyDJ "00713" ⟨some 103, some 100, none, some (17 / 5)⟩)).nav
        = some 100 ∧
      (applyOverlayFailed
        (fetchFromMoneyDJ "00713" ⟨some 103, some 100, none, some (17 / 5)⟩)).premiumPct
        = some (17 / 5) ∧
      (17 / 5 : ℚ) ≠ round2 ((103 - 100) / 100 * 100) := by
  decide

/-- C1 amended: in every successful response, whenever a record's price
and nav are both non-null and nav ≠ 0, its premiumPct is non-null and
within 1.0 percentage point of round2((price−nav)/nav·100) — equal to
it except when a source-reported premium within the tolerance was
kept. -/
theorem C1_amended (codesRaw : Option String) (now : String)
    (primary : String → Except String Extracted)
    (secondary : Except String (List TwseQuote)) (st : Nat) (u : String)
    (items : List FundRecord) (bc : List (String × FundRecord)) (src : String)
    (hok : handler codesRaw now primary secondary = .ok st u items bc src)
    (r : FundRecord) (hr : r ∈ items) (p n : ℚ)
    (hp : r.price = some p) (hn : r.nav = some n) (hn0 : n ≠ 0) :
    ∃ pp, r.premiumPct = some pp ∧ |pp - round2 ((p - n) / n * 100)| ≤ 1 := by
  simp only [handler] at hok
  by_cases hc : parseCodes codesRaw = []
  · rw [if_pos hc] at hok
    cases hok
  · rw [if_neg hc] at hok
    cases hfa : fetchAll primary (parseCodes codesRaw) with
    | error msg => rw [hfa] at hok; cases hok
    | ok items0 =>
      rw [hfa] at hok
      cases secondary with
      | ok arr =>
        cases hok
        obtain ⟨r0, hr0, rfl⟩ := List.mem_map.mp hr
        obtain ⟨c, e, _, _, rfl⟩ := fetchAll_ok_mem hfa r0 hr0
        exact applyOverlay_premium_near_computed (twsePriceMapOf arr) (fetchFromMoneyDJ c e)
          (fun p1 n1 hp1 hn1 hn10 =>
            fetchFromMoneyDJ_premium_near_computed c e p1 n1 hp1 hn1 hn10)
          p n hp hn hn0
      | error emsg =>
        cases hok
        obtain ⟨r0, hr0, rfl⟩ := List.mem_map.mp hr
        obtain ⟨c, e, _, _, rfl⟩ := fetchAll_ok_mem hfa r0 hr0
        exact fetchFromMoneyDJ_premium_near_computed c e p n hp hn hn0

theorem C1_amended_witness :
    ∃ pp,
      (applyOverlayFailed
          (fetchFromMoneyDJ "00713" ⟨some 103, some 100, none, some (17 / 5)⟩)).premiumPct
          = some pp ∧
        |pp - round2 ((103 - 100) / 100 * 100)| ≤ 1 :=
  C1_amended (some "00713") "t"
    (fun _ => .ok ⟨some 103, some 100, none, some (17 / 5)⟩) (.error "down") 200 "t"
    [applyOverlayFailed (fetchFromMoneyDJ "00713" ⟨some 103, some 100, none, some (17 / 5)⟩)]
    [("00713", applyOverlayFailed
      (fetchFromMoneyDJ "00713" ⟨some 103, some 100, none, some (17 / 5)⟩))]
    "MoneyDJ (NAV/premium) + optional TWSE realtime price" (by decide)
    (applyOverlayFailed (fetchFromMoneyDJ "00713" ⟨some 103, some 100, none, some (17 / 5)⟩))
    (by decide) 103 100 (by decide) (by decide) (by decide)

/-- C5: when the secondary fetch fails after all primary extractions
succeeded, the request still returns the success document; each record
keeps its primary price, nav and premium fields, gains the
overlay-failure note, and has priceFrom confirmed or defaulted to the
primary-source label. -/
theorem C5_overlay_failure_fallback (codesRaw : Option String) (now emsg : String)
    (primary : String → Except String Extracted) (items0 : List FundRecord)
    (hne : parseCodes codesRaw ≠ [])
    (hfetch : fetchAll primary (parseCodes codesRaw) = .ok items0) :
    handler codesRaw now primary (.error emsg) =
      .ok 200 now (items0.map applyOverlayFailed)
        (fromEntries ((items0.map applyOverlayFailed).map (fun x => (x.code, x))))
        "MoneyDJ (NAV/premium) + optional TWSE realtime price" ∧
      ∀ r ∈ items0,
        (applyOverlayFailed r).price = r.price ∧
          (applyOverlayFailed r).nav = r.nav ∧
          (applyOverlayFailed r).premiumPct = r.premiumPct ∧
          (applyOverlayFailed r).premiumFrom = r.premiumFrom ∧
          (applyOverlayFailed r).realtimePriceNote =
            some "TWSE realtime price fetch failed; using MoneyDJ price." ∧
          (applyOverlayFailed r).priceFrom = some (jsOrString r.priceFrom "MoneyDJ") := by
  constructor
  · simp only [handler]
    rw [if_neg hne, hfetch]
  · intro r _
    exact ⟨rfl, rfl, rfl, rfl, rfl, rfl⟩

theorem C5_overlay_failure_fallback_witness :
    handler (some "00713,00955,009816") "t"
        (fun _ => .ok ⟨some 100, some 98, none, none⟩) (.error "TWSE down") =
      .ok 200 "t"
        ([fetchFromMoneyDJ "00713" ⟨some 100, some 98, none, none⟩,
          fetchFromMoneyDJ "00955" ⟨some 100, some 98, none, none⟩,
          fetchFromMoneyDJ "009816" ⟨some 100, some 98, none, none⟩].map applyOverlayFailed)
        (fromEntries (([fetchFromMoneyDJ "00713" ⟨some 100, some 98, none, none⟩,
          fetchFromMoneyDJ "00955" ⟨some 100, some 98, none, none⟩,
          fetchFromMoneyDJ "009816" ⟨some 100, some 98, none, none⟩].map
            applyOverlayFailed).map (fun x => (x.code, x))))
        "MoneyDJ (NAV/premium) + optional TWSE realtime price" ∧
      ∀ r ∈ [fetchFromMoneyDJ "00713" ⟨some 100, some 98, none, none⟩,
          fetchFromMoneyDJ "00955" ⟨some 100, some 98, none, none⟩,
          fetchFromMoneyDJ "009816" ⟨some 100, some 98, none, none⟩],
        (applyOverlayFailed r).price = r.price ∧
          (applyOverlayFailed r).nav = r.nav ∧
          (applyOverlayFailed r).premiumPct = r.premiumPct ∧
          (applyOverlayFailed r).premiumFrom = r.premiumFrom ∧
          (applyOverlayFailed r).realtimePriceNote =
            some "TWSE realtime price fetch failed; using MoneyDJ price." ∧
          (applyOverlayFailed r).priceFrom = some (jsOrString r.priceFrom "MoneyDJ") :=
  C5_overlay_failure_fallback (some "00713,00955,009816") "t" "TWSE down"
    (fun _ => .ok ⟨some 100, some 98, none, none⟩)
    [fetchFromMoneyDJ "00713" ⟨some 100, some 98, none, none⟩,
      fetchFromMoneyDJ "00955" ⟨some 100, some 98, none, none⟩,
      fetchFromMoneyDJ "009816" ⟨some 100, some 98, none, none⟩]
    (by decide) rfl

/-- C6: if the primary fetch fails for any one requested code, the
whole request fails with the 502 upstream-error document carrying an
underlying message — no success document with partial per-code results
is returned. -/
theorem C6_primary_failure_fatal (codesRaw : Option String) (now : String)
    (primary : String → Except String Extracted)
    (secondary : Except String (List TwseQuote)) (c msg : String)
    (hc : c ∈ parseCodes codesRaw) (hfail : primary c = .error msg) :
    ∃ m, handler codesRaw now primary secondary =
      .apiError 502 "upstream error" (some m) := by
  have hne : parseCodes codesRaw ≠ [] := by
    intro h
    rw [h] at hc
    exact absurd hc (List.not_mem_nil c)
  obtain ⟨m, hm⟩ := fetchAll_error_of_mem hc hfail
  refine ⟨m, ?_⟩
  simp only [handler]
  rw [if_neg hne, hm]

theorem C6_primary_failure_fatal_witness :
    ∃ m, handler (some "00713,00955") "t"
        (fun c => if c = "00955"
          then .error "MoneyDJ fetch failed: 503 Service Unavailable"
          else .ok ⟨none, none, none, none⟩)
        (.error "x") =
      .apiError 502 "upstream error" (some m) :=
  C6_primary_failure_fatal (some "00713,00955") "t"
    (fun c => if c = "00955"
      then .error "MoneyDJ fetch failed: 503 Service Unavailable"
      else .ok ⟨none, none, none, none⟩)
    (.error "x") "00955" "MoneyDJ fetch failed: 503 Service Unavailable"
    (by decide) rfl

/-- C7: when the codes parameter is missing, empty, or made only of
whitespace/empty comma segments, the handler answers the 400
invalid-request document; the result does not depend on the `primary`
and `secondary` inputs, which models that no upstream fetch happens. -/
theorem C7_invalid_request (codesRaw : Option String) (now : String)
    (primary : String → Except String Extracted)
    (secondary : Except String (List TwseQuote))
    (h : ∀ s ∈ jsSplitOnComma (jsTrim (codesRaw.getD "")), jsTrim s = "") :
    handler codesRaw now primary secondary =
      .apiError 400 "missing codes. e.g. ?codes=00713,00635U" none := by
  have hempty : parseCodes codesRaw = [] := by
    unfold parseCodes
    rw [List.filter_eq_nil_iff]
    intro a ha
    obtain ⟨s, hs, rfl⟩ := List.mem_map.mp ha
    rw [h s hs]
    decide
  simp [handler, hempty]

theorem C7_invalid_request_witness :
    handler (some " , ,,") "t" (fun _ => .ok ⟨none, none, none, none⟩) (.error "x") =
      .apiError 400 "missing codes. e.g. ?codes=00713,00635U" none :=
  C7_invalid_request (some " , ,,") "t" (fun _ => .ok ⟨none, none, none, none⟩)
    (.error "x") (by decide)

/-- C9 counterexample: requesting the same code twice yields a
successful response whose items list contains two records with the same
code "00713" — codes are not unique within the items of a response. -/
theorem C9_counterexample :
    handler (some "00713,00713") "t" (fun _ => .ok ⟨none, none, none, none⟩)
        (.error "boom") =
      .ok 200 "t"
        [applyOverlayFailed (fetchFromMoneyDJ "00713" ⟨none, none, none, none⟩),
          applyOverlayFailed (fetchFromMoneyDJ "00713" ⟨none, none, none, none⟩)]
        [("00713", applyOverlayFailed (fetchFromMoneyDJ "00713" ⟨none, none, none, none⟩))]
        "MoneyDJ (NAV/premium) + optional TWSE realtime price" ∧
      (applyOverlayFailed (fetchFromMoneyDJ "00713" ⟨none, none, none, none⟩)).code
        = "00713" := by
  decide

/-- C9 amended: every record's code is non-empty, and codes are unique
within the items of a successful response whenever the normalized
inbound code list itself contains no duplicates (the handler does not
deduplicate; only the byCode object collapses duplicates). -/
theorem C9_amended (codesRaw : Option String) (now : String)
    (primary : String → Except String Extracted)
    (secondary : Except String (List TwseQuote)) (st : Nat) (u : String)
    (items : List FundRecord) (bc : List (String × FundRecord)) (src : String)
    (hnd : (parseCodes codesRaw).Nodup)
    (hok : handler codesRaw now primary secondary = .ok st u items bc src) :
    (∀ r ∈ items, r.code ≠ "") ∧ (items.map FundRecord.code).Nodup := by
  have hcodes : items.map FundRecord.code = parseCodes codesRaw := by
    simp only [handler] at hok
    by_cases hc : parseCodes codesRaw = []
    · rw [if_pos hc] at hok
      cases hok
    · rw [if_neg hc] at hok
      cases hfa : fetchAll primary (parseCodes codesRaw) with
      | error msg => rw [hfa] at hok; cases hok
      | ok items0 =>
        rw [hfa] at hok
        cases secondary with
        | ok arr =>
          cases hok
          rw [List.map_map]
          have hcomp : (FundRecord.code ∘ applyOverlay (twsePriceMapOf arr))
              = FundRecord.code := by
            funext it
            exact applyOverlay_code (twsePriceMapOf arr) it
          rw [hcomp, fetchAll_ok_codes hfa]
        | error m =>
          cases hok
          rw [List.map_map]
          have hcomp : (FundRecord.code ∘ applyOverlayFailed) = FundRecord.code := by
            funext it
            rfl
          rw [hcomp, fetchAll_ok_codes hfa]
  constructor
  · intro r hr
    have hmem : r.code ∈ parseCodes codesRaw := by
      rw [← hcodes]
      exact List.mem_map_of_mem FundRecord.code hr
    have hfilter := List.of_mem_filter hmem
    simpa using hfilter
  · rw [hcodes]
    exact hnd

theorem C9_amended_witness :
    (∀ r ∈ [applyOverlayFailed (fetchFromMoneyDJ "00713" ⟨none, none, none, none⟩),
        applyOverlayFailed (fetchFromMoneyDJ "00955" ⟨none, none, none, none⟩)],
      r.code ≠ "") ∧
      (([applyOverlayFailed (fetchFromMoneyDJ "00713" ⟨none, none, none, none⟩),
        applyOverlayFailed (fetchFromMoneyDJ "00955" ⟨none, none, none, none⟩)].map
          FundRecord.code).Nodup) :=
  C9_amended (some "00713,00955") "t" (fun _ => .ok ⟨none, none, none, none⟩)
    (.error "boom") 200 "t"
    [applyOverlayFailed (fetchFromMoneyDJ "00713" ⟨none, none, none, none⟩),
      applyOverlayFailed (fetchFromMoneyDJ "00955" ⟨none, none, none, none⟩)]
    [("00713", applyOverlayFailed (fetchFromMoneyDJ "00713" ⟨none, none, none, none⟩)),
      ("00955", applyOverlayFailed (fetchFromMoneyDJ "00955" ⟨none, none, none, none⟩))]
    "MoneyDJ (NAV/premium) + optional TWSE realtime price" (by decide) (by decide)

end EtfDashboard
